import Mathlib

/-
Shallow embedding of the LectureLink front end upload/poll orchestrator.

Sources embedded here:
  - the record page component (src/unnamed/part_002): state hooks, file
    selection handlers, pollJobStatus, handleProcess;
  - the API client (src/lib/api.ts): deleteJob response handling and the
    stage display helper.

The page runs in a single-threaded, cooperative event loop.  Each awaited
network or database call is a suspension point; the code between two
suspension points runs atomically.  The embedding therefore models one
invocation of an async handler as a pure function from the outcomes of its
awaited calls (a PollEnv or SubmitEnv record) and the current component
state to the new state plus an ordered trace of effects.  Overlapping poll
responses are modelled by running the handler once per response; the
in-between interleavings cannot be observed because every read-modify-write
of the guard flag and of the timer handle sits inside one atomic segment of
the source.
-/

namespace LectureLink

/-- Processing stages of the record page (the ProcessingStage union type in
the source component). -/
inductive ProcessingStage
  | idle
  | uploading
  | processing
  | summary
  | saving
  | complete
  | error
  deriving DecidableEq, Repr

/-- Lifecycle values of the remote job status field (the status union in
the JobStatus interface of src/lib/api.ts). -/
inductive JobLifecycle
  | pending
  | processing
  | completed
  | failed
  deriving DecidableEq, Repr

/-- JobStatus payload returned by the status endpoint (src/lib/api.ts). -/
structure JobStatus where
  job_id : String
  status : JobLifecycle
  stage : Option String
  progress : Nat
  message : Option String
  created_at : String
  completed_at : Option String
  error : Option String
  deriving DecidableEq, Repr

/-- The master_document part of a job result (src/lib/api.ts JobResult).
Only markdown_content is read by the orchestrator; total_sections and
total_words are never consumed, so they are carried as plain numbers. -/
structure MasterDocument where
  markdown_content : String
  total_sections : Nat
  total_words : Nat
  deriving DecidableEq, Repr

/-- JobResult payload (src/lib/api.ts).  The transcription, slides and
alignment blocks are never read by the record page, so they are not
modelled field by field. -/
structure JobResult where
  job_id : String
  status : String
  master_document : Option MasterDocument
  deriving DecidableEq, Repr

/-- SummaryResponse payload (src/lib/api.ts).  The orchestrator forwards
key_concepts, definitions and main_takeaways opaquely into the upsert
payload, so the entries are modelled as opaque strings. -/
structure SummaryResponse where
  title : String
  key_concepts : List String
  definitions : List String
  main_takeaways : List String
  deriving DecidableEq, Repr

/-- Stage display entry (STAGE_INFO values in src/lib/api.ts). -/
structure StageDisplay where
  icon : String
  label : String
  deriving DecidableEq, Repr

/-- STAGE_INFO table from src/lib/api.ts (icons copied byte for byte from
the source file). -/
def STAGE_INFO : List (String × StageDisplay) :=
  [("audio_conversion", { icon := "üîÑ", label := "Converting audio..." }),
   ("transcription", { icon := "üéôÔ∏è", label := "Transcribing audio..." }),
   ("slides", { icon := "üìä", label := "Processing slides..." }),
   ("alignment", { icon := "üîó", label := "Aligning content..." }),
   ("document", { icon := "üìÑ", label := "Generating document..." }),
   ("complete", { icon := "‚úÖ", label := "Processing complete!" })]

/-- getStageDisplay from src/lib/api.ts: look the stage tag up in
STAGE_INFO, defaulting the tag to the empty string and the entry to the
generic processing display. -/
def getStageDisplay (stage : Option String) : StageDisplay :=
  match STAGE_INFO.lookup (stage.getD "") with
  | some d => d
  | none => { icon := "‚è≥", label := "Processing..." }

/-- Subset of the fetch Response object read by deleteJob. -/
structure HttpResponse where
  ok : Bool
  status : Nat
  deriving DecidableEq, Repr

/-- deleteJob from src/lib/api.ts, as a function of the fetch response: a
non-ok response throws unless its status is 404. -/
def deleteJob (resp : HttpResponse) : Except String Unit :=
  if !resp.ok && resp.status != 404 then Except.error "Failed to delete job"
  else Except.ok ()

/-- File metadata read by the selection handlers (name, MIME type, size of
a browser File object). -/
structure FileMeta where
  name : String
  mime : String
  size : Nat
  deriving DecidableEq, Repr

/-- UploadedFile record kept in component state (the UploadedFile interface
in the source component). -/
structure UploadedFile where
  file : FileMeta
  name : String
  size : Nat
  deriving DecidableEq, Repr

/-- Helper for jsSplitDots: accumulate characters of the current piece in
reverse, emitting a piece at every dot. -/
def splitDotsAux : List Char → List Char → List String
  | [], acc => [String.mk acc.reverse]
  | c :: cs, acc =>
    if c == '.' then String.mk acc.reverse :: splitDotsAux cs []
    else splitDotsAux cs (c :: acc)

/-- JS String.prototype.split with a dot separator, as used by the
selection handlers: split at every dot, keeping empty pieces, never
yielding an empty list. -/
def jsSplitDots (s : String) : List String := splitDotsAux s.data []

/-- JS String.prototype.toLowerCase restricted to the character level
lowering that the compared extension literals exercise. -/
def lowerString (s : String) : String := String.mk (s.data.map Char.toLower)

/-- JS String.prototype.trim: strip whitespace from both ends. -/
def jsTrim (s : String) : String :=
  String.mk (((s.data.dropWhile Char.isWhitespace).reverse.dropWhile
    Char.isWhitespace).reverse)

/-- Extension extraction in the selection handlers:
name.split on dots, take the last piece, lower case it.  The JS split never
yields an empty array, and jsSplitDots likewise always yields at least one
piece, so the option mirrors the optional chaining of the source. -/
def fileExtension (name : String) : Option String :=
  ((jsSplitDots name).getLast?).map (fun s => lowerString s)

/-- Accepted audio MIME types (handleAudioSelect). -/
def audioValidTypes : List String :=
  ["audio/mpeg", "audio/mp3", "audio/wav", "audio/webm", "audio/m4a",
   "audio/mp4", "audio/x-m4a"]

/-- Accepted audio file extensions (handleAudioSelect). -/
def audioValidExtensions : List String := ["mp3", "wav", "webm", "m4a", "mp4"]

/-- Accepted slides MIME types (handleSlidesSelect). -/
def slidesValidTypes : List String :=
  ["application/pdf",
   "application/vnd.openxmlformats-officedocument.presentationml.presentation"]

/-- Accepted slides file extensions (handleSlidesSelect). -/
def slidesValidExtensions : List String := ["pdf", "pptx"]

/-- Component state of the record page: the useState hooks plus the two
mutable refs (pollingRef modelled as the boolean pollingActive, meaning the
interval handle is non-null, and completionStartedRef as
completionStarted). -/
structure OrchState where
  lectureName : String
  audioFile : Option UploadedFile
  slidesFile : Option UploadedFile
  stage : ProcessingStage
  progress : Nat
  statusMessage : String
  error : Option String
  pollingActive : Bool
  completionStarted : Bool
  deriving DecidableEq, Repr

/-- Payload of an update call on the lectures table: the three shapes that
occur in the source (status completed with slide flags, status completed
alone, status failed). -/
inductive LectureUpdatePayload
  | completedWithFlags (hasSlides : Bool) (hasAlignment : Bool)
  | completedOnly
  | failedOnly
  deriving DecidableEq, Repr

/-- Observable effects of the orchestrator, in program order: remote calls,
database writes, state setters, timer operations, navigation, console
logging. -/
inductive Event
  | callGetJobStatus (jobId : String)
  | setProgressEv (p : Nat)
  | setStatusMessageEv (m : String)
  | setStageEv (s : ProcessingStage)
  | setErrorEv (e : Option String)
  | clearPollTimer
  | callGetJobResult (jobId : String)
  | callGenerateSummary (content : String) (title : String)
  | upsertSummaryRow (lectureId : String) (title : String)
      (keyConcepts : List String) (definitions : List String)
      (importantPoints : List String) (actionItems : List String)
  | updateLectureRow (lectureId : String) (payload : LectureUpdatePayload)
  | callDeleteJob (jobId : String)
  | scheduleRedirect (lectureId : String) (delayMs : Nat)
  | navigate (lectureId : String)
  | logged (msg : String)
  | callGetUser
  | insertLectureRow (userId : String) (title : String) (status : String)
      (recordingDate : String)
  | callProcessLecture (hasSlides : Bool)
  | startPollTimer (intervalMs : Nat)
  | invokePoll (jobId : String) (lectureId : String)
  deriving DecidableEq, Repr

/-- Outcomes of the awaited calls inside one pollJobStatus invocation.  An
Except.error value means the awaited promise rejected at that point.  The
two delete outcomes are listed even though the source swallows them with a
catch handler, so that their irrelevance is provable rather than built in. -/
structure PollEnv where
  statusOutcome : Except Unit JobStatus
  resultOutcome : Except Unit JobResult
  summaryOutcome : Except Unit SummaryResponse
  upsertOutcome : Except Unit Unit
  updateOutcome : Except Unit Unit
  plainUpdateOutcome : Except Unit Unit
  rescueUpdateOutcome : Except Unit Unit
  failedUpdateOutcome : Except Unit Unit
  deleteOutcome : Except Unit Unit
  rescueDeleteOutcome : Except Unit Unit
  deriving Repr

/-- Identifiers a poll invocation is called with (the jobId and lectureId
arguments of pollJobStatus). -/
structure PollCtx where
  jobId : String
  lectureId : String
  deriving DecidableEq, Repr

/-- Markdown content extracted from a job result, mirroring the optional
chaining on master_document in the source. -/
def jobMarkdown (r : JobResult) : Option String :=
  r.master_document.map (fun d => d.markdown_content)

/-- Truthiness of an optional string under the JS conditional used by the
source: undefined and the empty string are falsy. -/
def truthyString : Option String → Bool
  | none => false
  | some s => !(s == "")

/-- JS logical-or on an optional string against a fallback (used for
status.error or a generic message): the fallback is taken when the value is
absent or empty. -/
def jsOr (a : Option String) (b : String) : String :=
  match a with
  | none => b
  | some s => if s == "" then b else s

/-- Continuation selected by the synchronous part of a poll invocation. -/
inductive PollCont
  | finished
  | runCompletion (status : JobStatus)
  | runFailed (status : JobStatus)
  deriving DecidableEq, Repr

/-- Synchronous segment of pollJobStatus after the status response arrives:
display updates, the branch dispatch on the reported status, the completion
guard check-and-set, the timer cancellation, and the stage transition to
summary, all of which sit between the getJobStatus await and the next await
in the source and hence run atomically. -/
def handleStatusSync (st : OrchState) (status : JobStatus) :
    OrchState × List Event × PollCont :=
  let disp := getStageDisplay status.stage
  let st1 := { st with progress := status.progress, statusMessage := disp.label }
  let ev1 : List Event :=
    [Event.setProgressEv status.progress, Event.setStatusMessageEv disp.label]
  match status.status with
  | JobLifecycle.completed =>
    if st1.completionStarted then
      (st1, ev1, PollCont.finished)
    else
      let st2 := { st1 with completionStarted := true }
      let cleared : OrchState × List Event :=
        if st2.pollingActive then
          ({ st2 with pollingActive := false }, [Event.clearPollTimer])
        else (st2, [])
      let st4 := { cleared.1 with
        stage := ProcessingStage.summary
        statusMessage := "Generating AI summary..."
        progress := 90 }
      let ev4 : List Event :=
        [Event.setStageEv ProcessingStage.summary,
         Event.setStatusMessageEv "Generating AI summary...",
         Event.setProgressEv 90]
      (st4, ev1 ++ cleared.2 ++ ev4, PollCont.runCompletion status)
  | JobLifecycle.failed =>
    let cleared : OrchState × List Event :=
      if st1.pollingActive then
        ({ st1 with pollingActive := false }, [Event.clearPollTimer])
      else (st1, [])
    (cleared.1, ev1 ++ cleared.2, PollCont.runFailed status)
  | _ => (st1, ev1, PollCont.finished)

/-- Tail of the completion pipeline shared by both result branches of the
inner try block: transition to complete, progress 100, completion message,
the deleteJob call whose rejection the source swallows with a catch
handler, and the setTimeout that schedules the redirect after 1500 ms. -/
def completionTail (ctx : PollCtx) (st : OrchState) : OrchState × List Event :=
  let st1 := { st with
    stage := ProcessingStage.complete
    progress := 100
    statusMessage := "Processing complete!" }
  (st1,
   [Event.setStageEv ProcessingStage.complete, Event.setProgressEv 100,
    Event.setStatusMessageEv "Processing complete!",
    Event.callDeleteJob ctx.jobId,
    Event.scheduleRedirect ctx.lectureId 1500])

/-- Inner try block of the completion pipeline (result fetch, summary
generation, summary upsert, lecture update, then the shared tail).  The
boolean in the result records whether an exception escaped the try block
into the inner catch handler. -/
def runCompletionTry (env : PollEnv) (ctx : PollCtx) (st : OrchState) :
    OrchState × List Event × Bool :=
  match env.resultOutcome with
  | Except.error _ => (st, [Event.callGetJobResult ctx.jobId], true)
  | Except.ok result =>
    let evA : List Event := [Event.callGetJobResult ctx.jobId]
    let markdownContent := jobMarkdown result
    if truthyString markdownContent then
      match env.summaryOutcome with
      | Except.error _ =>
        (st, evA ++ [Event.callGenerateSummary (markdownContent.getD "")
          st.lectureName], true)
      | Except.ok summary =>
        let evB := evA ++ [Event.callGenerateSummary (markdownContent.getD "")
          st.lectureName]
        let st1 := { st with
          stage := ProcessingStage.saving
          statusMessage := "Saving to database..."
          progress := 95 }
        let evC := evB ++
          [Event.setStageEv ProcessingStage.saving,
           Event.setStatusMessageEv "Saving to database...",
           Event.setProgressEv 95]
        match env.upsertOutcome with
        | Except.error _ =>
          (st1, evC ++ [Event.upsertSummaryRow ctx.lectureId summary.title
            summary.key_concepts summary.definitions summary.main_takeaways []],
           true)
        | Except.ok _ =>
          let evD := evC ++ [Event.upsertSummaryRow ctx.lectureId summary.title
            summary.key_concepts summary.definitions summary.main_takeaways []]
          match env.updateOutcome with
          | Except.error _ =>
            (st1, evD ++ [Event.updateLectureRow ctx.lectureId
              (LectureUpdatePayload.completedWithFlags st.slidesFile.isSome
                st.slidesFile.isSome)], true)
          | Except.ok _ =>
            let evE := evD ++ [Event.updateLectureRow ctx.lectureId
              (LectureUpdatePayload.completedWithFlags st.slidesFile.isSome
                st.slidesFile.isSome)]
            let tail := completionTail ctx st1
            (tail.1, evE ++ tail.2, false)
    else
      match env.plainUpdateOutcome with
      | Except.error _ =>
        (st, evA ++ [Event.updateLectureRow ctx.lectureId
          LectureUpdatePayload.completedOnly], true)
      | Except.ok _ =>
        let evF := evA ++ [Event.updateLectureRow ctx.lectureId
          LectureUpdatePayload.completedOnly]
        let tail := completionTail ctx st
        (tail.1, evF ++ tail.2, false)

/-- Completion pipeline with its inner catch handler: on an escaped
exception, log, update the lecture to completed without a summary, call
deleteJob with the rejection swallowed, and navigate immediately.  The
boolean records whether an exception escaped even the catch handler (the
rescue update itself rejecting) into the outer catch of pollJobStatus. -/
def runCompletion (env : PollEnv) (ctx : PollCtx) (st : OrchState) :
    OrchState × List Event × Bool :=
  let tried := runCompletionTry env ctx st
  if tried.2.2 then
    match env.rescueUpdateOutcome with
    | Except.error _ =>
      (tried.1, tried.2.1 ++
        [Event.logged "Summary generation failed:",
         Event.updateLectureRow ctx.lectureId LectureUpdatePayload.completedOnly],
       true)
    | Except.ok _ =>
      (tried.1, tried.2.1 ++
        [Event.logged "Summary generation failed:",
         Event.updateLectureRow ctx.lectureId LectureUpdatePayload.completedOnly,
         Event.callDeleteJob ctx.jobId,
         Event.navigate ctx.lectureId],
       false)
  else (tried.1, tried.2.1, false)

/-- Failed branch of pollJobStatus after its synchronous segment: the
awaited update of the lecture row to failed, then the transition to the
error stage with the remote message or the generic fallback.  The boolean
records whether the update rejected, which propagates to the outer catch
before the stage or the error message is touched. -/
def runFailedBranch (env : PollEnv) (ctx : PollCtx) (status : JobStatus)
    (st : OrchState) : OrchState × List Event × Bool :=
  match env.failedUpdateOutcome with
  | Except.error _ =>
    (st, [Event.updateLectureRow ctx.lectureId LectureUpdatePayload.failedOnly],
     true)
  | Except.ok _ =>
    let msg := jsOr status.error "Processing failed"
    ({ st with stage := ProcessingStage.error, error := some msg },
     [Event.updateLectureRow ctx.lectureId LectureUpdatePayload.failedOnly,
      Event.setStageEv ProcessingStage.error,
      Event.setErrorEv (some msg)],
     false)

/-- One invocation of pollJobStatus, as a function of the outcomes of its
awaited calls.  The whole body sits in a try block whose catch handler only
logs, so no exception ever escapes an invocation. -/
def pollJobStatus (env : PollEnv) (ctx : PollCtx) (st : OrchState) :
    OrchState × List Event :=
  match env.statusOutcome with
  | Except.error _ =>
    (st, [Event.callGetJobStatus ctx.jobId, Event.logged "Polling error:"])
  | Except.ok status =>
    let sync := handleStatusSync st status
    let ev0 := Event.callGetJobStatus ctx.jobId :: sync.2.1
    match sync.2.2 with
    | PollCont.finished => (sync.1, ev0)
    | PollCont.runCompletion _ =>
      let ran := runCompletion env ctx sync.1
      if ran.2.2 then (ran.1, ev0 ++ ran.2.1 ++ [Event.logged "Polling error:"])
      else (ran.1, ev0 ++ ran.2.1)
    | PollCont.runFailed status2 =>
      let ran := runFailedBranch env ctx status2 sync.1
      if ran.2.2 then (ran.1, ev0 ++ ran.2.1 ++ [Event.logged "Polling error:"])
      else (ran.1, ev0 ++ ran.2.1)

/-- Sequential handling of a list of poll responses.  Because the guard
check-and-set, the timer cancellation and the branch dispatch of each
invocation form one atomic segment of the single-threaded event loop, any
interleaving of N overlapping responses handles their status segments in
some total order, which this fold ranges over. -/
def runPolls (envs : List PollEnv) (ctx : PollCtx) (st : OrchState) :
    OrchState × List Event :=
  match envs with
  | [] => (st, [])
  | e :: rest =>
    let fst := pollJobStatus e ctx st
    let snd := runPolls rest ctx fst.1
    (snd.1, fst.2 ++ snd.2)

/-- handleAudioSelect from the source component: ignore an empty pick,
reject a file whose MIME type and extension are both unrecognised, reject a
file above 500 MB, otherwise store the selection and clear the error.  The
handler performs no network or database call, so it returns only the new
state. -/
def handleAudioSelect (picked : Option FileMeta) (st : OrchState) : OrchState :=
  match picked with
  | none => st
  | some file =>
    let extension := fileExtension file.name
    if !(audioValidTypes.contains file.mime) &&
        !(audioValidExtensions.contains (extension.getD "")) then
      { st with error := some "Please upload an MP3, WAV, WebM, or M4A audio file" }
    else if file.size > 500 * 1024 * 1024 then
      { st with error := some "Audio file must be less than 500MB" }
    else
      { st with
        audioFile := some { file := file, name := file.name, size := file.size }
        error := none }

/-- handleSlidesSelect from the source component: same shape as the audio
handler with the PDF/PPTX signatures and the 50 MB cap. -/
def handleSlidesSelect (picked : Option FileMeta) (st : OrchState) : OrchState :=
  match picked with
  | none => st
  | some file =>
    let extension := fileExtension file.name
    if !(slidesValidTypes.contains file.mime) &&
        !(slidesValidExtensions.contains (extension.getD "")) then
      { st with error := some "Please upload a PDF or PPTX file" }
    else if file.size > 50 * 1024 * 1024 then
      { st with error := some "Slides file must be less than 50MB" }
    else
      { st with
        slidesFile := some { file := file, name := file.name, size := file.size }
        error := none }

/-- Outcomes of the awaited calls inside one handleProcess invocation.  A
thrown value carries the message of the Error object when there was one
(the catch handler tests err instanceof Error).  The getUser payload is the
optional user id; the insert payload is the optional selected lecture id,
none standing for lectureError or a missing row, which the source converts
into a thrown record-creation error.  nowIso stands for the wall-clock
recording date string. -/
structure SubmitEnv where
  getUserOutcome : Except (Option String) (Option String)
  insertOutcome : Except (Option String) (Option String)
  processOutcome : Except (Option String) String
  nowIso : String
  deriving Repr

/-- Catch handler of handleProcess: log, transition to the error stage, and
surface the thrown message or the generic fallback. -/
def submitRescue (thrown : Option String) (st : OrchState) (evs : List Event) :
    OrchState × List Event :=
  let msg := thrown.getD "Failed to start processing"
  ({ st with stage := ProcessingStage.error, error := some msg },
   evs ++ [Event.logged "Processing error:",
           Event.setStageEv ProcessingStage.error,
           Event.setErrorEv (some msg)])

/-- handleProcess from the source component: validation of the audio
selection and the lecture name, the transition to uploading, then the try
block that looks the user up, inserts the lecture row, submits the job and
starts the 3 second poll timer plus the immediate first poll, with its
catch handler surfacing the failure. -/
def handleProcess (env : SubmitEnv) (st : OrchState) : OrchState × List Event :=
  match st.audioFile with
  | none =>
    ({ st with error := some "Please upload an audio file" },
     [Event.setErrorEv (some "Please upload an audio file")])
  | some _ =>
    if jsTrim st.lectureName == "" then
      ({ st with error := some "Please enter a lecture name" },
       [Event.setErrorEv (some "Please enter a lecture name")])
    else
      let st1 := { st with
        error := none
        stage := ProcessingStage.uploading
        progress := 5
        statusMessage := "Uploading files..."
        completionStarted := false }
      let ev1 : List Event :=
        [Event.setErrorEv none, Event.setStageEv ProcessingStage.uploading,
         Event.setProgressEv 5, Event.setStatusMessageEv "Uploading files...",
         Event.callGetUser]
      match env.getUserOutcome with
      | Except.error thrown => submitRescue thrown st1 ev1
      | Except.ok none =>
        ({ st1 with error := some "Please log in to continue" },
         ev1 ++ [Event.setErrorEv (some "Please log in to continue")])
      | Except.ok (some userId) =>
        let ev2 := ev1 ++ [Event.insertLectureRow userId (jsTrim st.lectureName)
          "processing" env.nowIso]
        match env.insertOutcome with
        | Except.error thrown => submitRescue thrown st1 ev2
        | Except.ok none =>
          submitRescue (some "Failed to create lecture record") st1 ev2
        | Except.ok (some lectureId) =>
          let st2 := { st1 with
            progress := 10
            statusMessage := "Sending to processing server..." }
          let ev3 := ev2 ++
            [Event.setProgressEv 10,
             Event.setStatusMessageEv "Sending to processing server...",
             Event.callProcessLecture st.slidesFile.isSome]
          match env.processOutcome with
          | Except.error thrown => submitRescue thrown st2 ev3
          | Except.ok jobId =>
            let st3 := { st2 with
              stage := ProcessingStage.processing
              progress := 15
              pollingActive := true }
            (st3, ev3 ++
              [Event.setStageEv ProcessingStage.processing,
               Event.setProgressEv 15,
               Event.startPollTimer 3000,
               Event.invokePoll jobId lectureId])

/-- Effect cleanups the page component registers for view teardown.  The
source component declares no useEffect at all, hence registers no unmount
cleanup, so this list is empty. -/
def unmountCleanups : List (OrchState → OrchState) := []

/-- Tearing the hosting view down runs the registered cleanups in order; for
this component that is nothing at all, so the orchestrator state, in
particular the live interval handle, survives teardown untouched. -/
def teardownView (st : OrchState) : OrchState :=
  unmountCleanups.foldl (fun s f => f s) st

section EventPredicates

/-- Test for the result-fetch call of the completion pipeline. -/
def isResultFetchEv : Event → Bool
  | Event.callGetJobResult _ => true
  | _ => false

/-- Test for the summary-generation call. -/
def isSummaryCallEv : Event → Bool
  | Event.callGenerateSummary _ _ => true
  | _ => false

/-- Test for the summary upsert write. -/
def isUpsertEv : Event → Bool
  | Event.upsertSummaryRow _ _ _ _ _ _ => true
  | _ => false

/-- Test for a lecture update that writes a completed status. -/
def isCompletedUpdateEv : Event → Bool
  | Event.updateLectureRow _ (LectureUpdatePayload.completedWithFlags _ _) => true
  | Event.updateLectureRow _ LectureUpdatePayload.completedOnly => true
  | _ => false

/-- Test for a lecture update that writes the failed status. -/
def isFailedUpdateEv : Event → Bool
  | Event.updateLectureRow _ LectureUpdatePayload.failedOnly => true
  | _ => false

/-- Test for the deleteJob cleanup call. -/
def isDeleteCallEv : Event → Bool
  | Event.callDeleteJob _ => true
  | _ => false

/-- Test for a scheduled or immediate navigation to the detail view. -/
def isRedirectEv : Event → Bool
  | Event.scheduleRedirect _ _ => true
  | Event.navigate _ => true
  | _ => false

/-- Test for the timer cancellation. -/
def isClearTimerEv : Event → Bool
  | Event.clearPollTimer => true
  | _ => false

/-- Test for the transition into the complete stage. -/
def isCompleteStageEv : Event → Bool
  | Event.setStageEv ProcessingStage.complete => true
  | _ => false

/-- Test for the lecture row insertion. -/
def isInsertLectureEv : Event → Bool
  | Event.insertLectureRow _ _ _ _ => true
  | _ => false

/-- Test for the job submission call. -/
def isProcessCallEv : Event → Bool
  | Event.callProcessLecture _ => true
  | _ => false

/-- Test for any effect of the completion pipeline proper: result fetch,
summary generation, persistence writes, cleanup, redirect or navigation. -/
def isPipelineEffectEv (ev : Event) : Bool :=
  isResultFetchEv ev || isSummaryCallEv ev || isUpsertEv ev ||
  isCompletedUpdateEv ev || isFailedUpdateEv ev || isDeleteCallEv ev ||
  isRedirectEv ev

/-- Position of the first event satisfying a test (length of the trace when
absent), used to express program order. -/
def eventIdx (p : Event → Bool) (tr : List Event) : Nat := tr.findIdx p

end EventPredicates

section Fixtures

/-- Sample audio file metadata: a 10 MB MP3 as in the spec scenario. -/
def sampleAudioMeta : FileMeta :=
  { name := "lecture.mp3", mime := "audio/mpeg", size := 10485760 }

/-- Sample stored audio selection. -/
def sampleAudio : UploadedFile :=
  { file := sampleAudioMeta, name := "lecture.mp3", size := 10485760 }

/-- Idle record page with a valid audio selection and lecture name. -/
def idleReadyState : OrchState :=
  { lectureName := "Intro to ML"
    audioFile := some sampleAudio
    slidesFile := none
    stage := ProcessingStage.idle
    progress := 0
    statusMessage := ""
    error := none
    pollingActive := false
    completionStarted := false }

/-- Submission environment in which every awaited call succeeds. -/
def goodSubmitEnv : SubmitEnv :=
  { getUserOutcome := Except.ok (some "user-1")
    insertOutcome := Except.ok (some "lec-1")
    processOutcome := Except.ok "job-1"
    nowIso := "2026-01-01T00:00:00.000Z" }

/-- Submission environment whose identity lookup returns no user. -/
def noUserEnv : SubmitEnv :=
  { goodSubmitEnv with getUserOutcome := Except.ok none }

/-- Poll context matching the good submission fixture. -/
def cexCtx : PollCtx := { jobId := "job-1", lectureId := "lec-1" }

/-- Component state right after a successful submission: processing stage,
live poll timer, guard flag clear. -/
def postSubmitState : OrchState :=
  { idleReadyState with
    stage := ProcessingStage.processing
    progress := 15
    statusMessage := "Sending to processing server..."
    pollingActive := true }

/-- postSubmitState really is the state handleProcess leaves behind on the
all-success path, so the poll scenarios below start from a reachable state. -/
theorem postSubmitState_reachable :
    (handleProcess goodSubmitEnv idleReadyState).1 = postSubmitState := by decide

/-- Completed status response fixture. -/
def completedStatusResp : JobStatus :=
  { job_id := "job-1"
    status := JobLifecycle.completed
    stage := some "complete"
    progress := 100
    message := none
    created_at := "2026-01-01T00:00:00.000Z"
    completed_at := some "2026-01-01T00:10:00.000Z"
    error := none }

/-- Failed status response fixture carrying a remote error message. -/
def failedStatusResp : JobStatus :=
  { completedStatusResp with
    status := JobLifecycle.failed
    stage := some "transcription"
    progress := 40
    error := some "GPU worker crashed" }

/-- Job result fixture with derived document text present. -/
def benignResult : JobResult :=
  { job_id := "job-1"
    status := "completed"
    master_document := some
      { markdown_content := "# Intro to ML", total_sections := 3,
        total_words := 1200 } }

/-- Summary response fixture. -/
def benignSummary : SummaryResponse :=
  { title := "Intro to ML"
    key_concepts := ["gradient descent"]
    definitions := ["model"]
    main_takeaways := ["practice"] }

/-- Poll environment in which the job reports completed and every later
awaited call succeeds. -/
def benignPollEnv : PollEnv :=
  { statusOutcome := Except.ok completedStatusResp
    resultOutcome := Except.ok benignResult
    summaryOutcome := Except.ok benignSummary
    upsertOutcome := Except.ok ()
    updateOutcome := Except.ok ()
    plainUpdateOutcome := Except.ok ()
    rescueUpdateOutcome := Except.ok ()
    failedUpdateOutcome := Except.ok ()
    deleteOutcome := Except.ok ()
    rescueDeleteOutcome := Except.ok () }

/-- Poll environment in which the job reports failed and the persistence
update succeeds. -/
def failedPollEnv : PollEnv :=
  { benignPollEnv with statusOutcome := Except.ok failedStatusResp }

/-- Non-terminal status response fixture: the job still processing at the
transcription stage. -/
def processingStatusResp : JobStatus :=
  { completedStatusResp with
    status := JobLifecycle.processing
    stage := some "transcription"
    progress := 40
    completed_at := none }

/-- Poll environment whose status request resolves with the non-terminal
processing response. -/
def processingPollEnv : PollEnv :=
  { benignPollEnv with statusOutcome := Except.ok processingStatusResp }

/-- Poll environment in which the job reports failed and the awaited
persistence update itself rejects. -/
def failedUpdateThrowEnv : PollEnv :=
  { failedPollEnv with failedUpdateOutcome := Except.error () }

/-- Poll environment in which the status request itself rejects. -/
def statusThrowEnv : PollEnv :=
  { benignPollEnv with statusOutcome := Except.error () }

/-- Poll environment in which the job reports completed but the result
fetch rejects. -/
def resultThrowEnv : PollEnv :=
  { benignPollEnv with resultOutcome := Except.error () }

/-- Component state after the completion guard has fired: guard set, timer
cancelled, summary stage (the state the guard transition itself leaves
behind, so a reachable target for a late overlapping response). -/
def guardedState : OrchState :=
  { postSubmitState with
    stage := ProcessingStage.summary
    progress := 90
    statusMessage := "Generating AI summary..."
    pollingActive := false
    completionStarted := true }

end Fixtures

section PollRunLemmas

/-- Display label computed for a status response. -/
def respLabel (s : JobStatus) : String := (getStageDisplay s.stage).label

/-- A poll invocation that sees a completed status while the guard flag is
already set only refreshes the display: no pipeline effect, no state change
beyond progress and message. -/
theorem pollGuardedRun (env : PollEnv) (ctx : PollCtx) (st : OrchState)
    (s : JobStatus) (hs : env.statusOutcome = Except.ok s)
    (hc : s.status = JobLifecycle.completed) (hg : st.completionStarted = true) :
    pollJobStatus env ctx st =
      ({ st with progress := s.progress, statusMessage := respLabel s },
       [Event.callGetJobStatus ctx.jobId, Event.setProgressEv s.progress,
        Event.setStatusMessageEv (respLabel s)]) := by
  simp [pollJobStatus, handleStatusSync, respLabel, hs, hc, hg]

/-- Full trace of the first poll invocation that observes completion when
every later awaited call succeeds and the result carries derived text:
guard set, timer cleared before any asynchronous work, summary generated,
summary upserted, lecture updated with slide flags, complete transition,
cleanup, redirect scheduled after 1500 ms. -/
theorem pollBenignRun (env : PollEnv) (ctx : PollCtx) (st : OrchState)
    (s : JobStatus) (r : JobResult) (sm : SummaryResponse)
    (hs : env.statusOutcome = Except.ok s)
    (hc : s.status = JobLifecycle.completed)
    (hr : env.resultOutcome = Except.ok r)
    (hm : truthyString (jobMarkdown r) = true)
    (hsm : env.summaryOutcome = Except.ok sm)
    (hup : env.upsertOutcome = Except.ok ())
    (hud : env.updateOutcome = Except.ok ())
    (hg : st.completionStarted = false)
    (hp : st.pollingActive = true) :
    pollJobStatus env ctx st =
      ({ st with
          stage := ProcessingStage.complete
          progress := 100
          statusMessage := "Processing complete!"
          pollingActive := false
          completionStarted := true },
       [Event.callGetJobStatus ctx.jobId,
        Event.setProgressEv s.progress,
        Event.setStatusMessageEv (respLabel s),
        Event.clearPollTimer,
        Event.setStageEv ProcessingStage.summary,
        Event.setStatusMessageEv "Generating AI summary...",
        Event.setProgressEv 90,
        Event.callGetJobResult ctx.jobId,
        Event.callGenerateSummary ((jobMarkdown r).getD "") st.lectureName,
        Event.setStageEv ProcessingStage.saving,
        Event.setStatusMessageEv "Saving to database...",
        Event.setProgressEv 95,
        Event.upsertSummaryRow ctx.lectureId sm.title sm.key_concepts
          sm.definitions sm.main_takeaways [],
        Event.updateLectureRow ctx.lectureId
          (LectureUpdatePayload.completedWithFlags st.slidesFile.isSome
            st.slidesFile.isSome),
        Event.setStageEv ProcessingStage.complete,
        Event.setProgressEv 100,
        Event.setStatusMessageEv "Processing complete!",
        Event.callDeleteJob ctx.jobId,
        Event.scheduleRedirect ctx.lectureId 1500]) := by
  simp [pollJobStatus, handleStatusSync, runCompletion, runCompletionTry,
    completionTail, respLabel, hs, hc, hr, hm, hsm, hup, hud, hg, hp]

/-- Full trace of a poll invocation that observes a failed status while the
timer is live and the persistence update succeeds: timer cleared, lecture
updated to failed, error stage with the remote message or the fallback. -/
theorem pollFailedRunActive (env : PollEnv) (ctx : PollCtx) (st : OrchState)
    (s : JobStatus) (hs : env.statusOutcome = Except.ok s)
    (hf : s.status = JobLifecycle.failed)
    (hu : env.failedUpdateOutcome = Except.ok ())
    (hp : st.pollingActive = true) :
    pollJobStatus env ctx st =
      ({ st with
          progress := s.progress
          statusMessage := respLabel s
          pollingActive := false
          stage := ProcessingStage.error
          error := some (jsOr s.error "Processing failed") },
       [Event.callGetJobStatus ctx.jobId,
        Event.setProgressEv s.progress,
        Event.setStatusMessageEv (respLabel s),
        Event.clearPollTimer,
        Event.updateLectureRow ctx.lectureId LectureUpdatePayload.failedOnly,
        Event.setStageEv ProcessingStage.error,
        Event.setErrorEv (some (jsOr s.error "Processing failed"))]) := by
  simp [pollJobStatus, handleStatusSync, runFailedBranch, respLabel,
    hs, hf, hu, hp]

/-- Same as pollFailedRunActive for an invocation arriving after the timer
was already cancelled: no clear event, everything else identical. -/
theorem pollFailedRunInactive (env : PollEnv) (ctx : PollCtx) (st : OrchState)
    (s : JobStatus) (hs : env.statusOutcome = Except.ok s)
    (hf : s.status = JobLifecycle.failed)
    (hu : env.failedUpdateOutcome = Except.ok ())
    (hp : st.pollingActive = false) :
    pollJobStatus env ctx st =
      ({ st with
          progress := s.progress
          statusMessage := respLabel s
          stage := ProcessingStage.error
          error := some (jsOr s.error "Processing failed") },
       [Event.callGetJobStatus ctx.jobId,
        Event.setProgressEv s.progress,
        Event.setStatusMessageEv (respLabel s),
        Event.updateLectureRow ctx.lectureId LectureUpdatePayload.failedOnly,
        Event.setStageEv ProcessingStage.error,
        Event.setErrorEv (some (jsOr s.error "Processing failed"))]) := by
  simp [pollJobStatus, handleStatusSync, runFailedBranch, respLabel,
    hs, hf, hu, hp]

/-- Run equation for a completion attempt whose result fetch rejects: the
inner catch still updates the lecture to completed, still calls cleanup,
and navigates immediately, leaving the summary stage in place. -/
theorem pollResultThrowRun (env : PollEnv) (ctx : PollCtx) (st : OrchState)
    (s : JobStatus) (hs : env.statusOutcome = Except.ok s)
    (hc : s.status = JobLifecycle.completed)
    (hr : env.resultOutcome = Except.error ())
    (hru : env.rescueUpdateOutcome = Except.ok ())
    (hg : st.completionStarted = false) (hp : st.pollingActive = true) :
    pollJobStatus env ctx st =
      ({ st with
          progress := 90
          statusMessage := "Generating AI summary..."
          stage := ProcessingStage.summary
          pollingActive := false
          completionStarted := true },
       [Event.callGetJobStatus ctx.jobId,
        Event.setProgressEv s.progress,
        Event.setStatusMessageEv (respLabel s),
        Event.clearPollTimer,
        Event.setStageEv ProcessingStage.summary,
        Event.setStatusMessageEv "Generating AI summary...",
        Event.setProgressEv 90,
        Event.callGetJobResult ctx.jobId,
        Event.logged "Summary generation failed:",
        Event.updateLectureRow ctx.lectureId LectureUpdatePayload.completedOnly,
        Event.callDeleteJob ctx.jobId,
        Event.navigate ctx.lectureId]) := by
  simp [pollJobStatus, handleStatusSync, runCompletion, runCompletionTry,
    respLabel, hs, hc, hr, hru, hg, hp]

/-- Run equation for a completion attempt whose summary generation rejects
after a result with derived text: same catch path as the result-fetch
rejection, with the summary call in the trace. -/
theorem pollSummaryThrowRun (env : PollEnv) (ctx : PollCtx) (st : OrchState)
    (s : JobStatus) (r : JobResult)
    (hs : env.statusOutcome = Except.ok s)
    (hc : s.status = JobLifecycle.completed)
    (hr : env.resultOutcome = Except.ok r)
    (hm : truthyString (jobMarkdown r) = true)
    (hsm : env.summaryOutcome = Except.error ())
    (hru : env.rescueUpdateOutcome = Except.ok ())
    (hg : st.completionStarted = false) (hp : st.pollingActive = true) :
    pollJobStatus env ctx st =
      ({ st with
          progress := 90
          statusMessage := "Generating AI summary..."
          stage := ProcessingStage.summary
          pollingActive := false
          completionStarted := true },
       [Event.callGetJobStatus ctx.jobId,
        Event.setProgressEv s.progress,
        Event.setStatusMessageEv (respLabel s),
        Event.clearPollTimer,
        Event.setStageEv ProcessingStage.summary,
        Event.setStatusMessageEv "Generating AI summary...",
        Event.setProgressEv 90,
        Event.callGetJobResult ctx.jobId,
        Event.callGenerateSummary ((jobMarkdown r).getD "") st.lectureName,
        Event.logged "Summary generation failed:",
        Event.updateLectureRow ctx.lectureId LectureUpdatePayload.completedOnly,
        Event.callDeleteJob ctx.jobId,
        Event.navigate ctx.lectureId]) := by
  simp [pollJobStatus, handleStatusSync, runCompletion, runCompletionTry,
    respLabel, hs, hc, hr, hm, hsm, hru, hg, hp]

/-- The synchronous segment of every poll response emits the progress and
status message writes first, whatever status the response reports and
whatever the guard and timer state are. -/
theorem handleStatusSyncHead (st : OrchState) (s : JobStatus) :
    ∃ extra, (handleStatusSync st s).2.1 =
      Event.setProgressEv s.progress ::
        Event.setStatusMessageEv (respLabel s) :: extra := by
  cases hst : s.status <;>
    cases hg : st.completionStarted <;>
      cases hpa : st.pollingActive <;>
        (simp only [handleStatusSync, hst, hg, hpa, respLabel]
         exact ⟨_, rfl⟩)

/-- Every poll invocation whose status request resolves opens its trace
with the status call followed immediately by the two display writes taken
from the remote response, before any branch on the reported status and in
particular before the completion guard is consulted. -/
theorem pollTraceHead (env : PollEnv) (ctx : PollCtx) (st : OrchState)
    (s : JobStatus) (hs : env.statusOutcome = Except.ok s) :
    ∃ tail, (pollJobStatus env ctx st).2 =
      Event.callGetJobStatus ctx.jobId :: Event.setProgressEv s.progress ::
        Event.setStatusMessageEv (respLabel s) :: tail := by
  obtain ⟨extra, hx⟩ := handleStatusSyncHead st s
  rcases hsync : handleStatusSync st s with ⟨st1, ev1, cont⟩
  rw [hsync] at hx
  simp only at hx
  cases cont with
  | finished =>
    simp only [pollJobStatus, hs, hsync]
    exact ⟨extra, by rw [hx]⟩
  | runCompletion a =>
    simp only [pollJobStatus, hs, hsync]
    split
    · exact ⟨extra ++ ((runCompletion env ctx st1).2.1 ++
        [Event.logged "Polling error:"]), by rw [hx]; simp⟩
    · exact ⟨extra ++ (runCompletion env ctx st1).2.1, by rw [hx]; simp⟩
  | runFailed s2 =>
    simp only [pollJobStatus, hs, hsync]
    split
    · exact ⟨extra ++ ((runFailedBranch env ctx s2 st1).2.1 ++
        [Event.logged "Polling error:"]), by rw [hx]; simp⟩
    · exact ⟨extra ++ (runFailedBranch env ctx s2 st1).2.1, by rw [hx]; simp⟩

end PollRunLemmas

section MultiRunLemmas

/-- A poll environment whose status request resolved to a completed-status
response. -/
def reportsCompleted (e : PollEnv) : Prop :=
  ∃ s, e.statusOutcome = Except.ok s ∧ s.status = JobLifecycle.completed

/-- A poll environment whose status request resolved to a failed-status
response and whose awaited persistence update succeeds. -/
def observesFailed (e : PollEnv) : Prop :=
  (∃ s, e.statusOutcome = Except.ok s ∧ s.status = JobLifecycle.failed) ∧
  e.failedUpdateOutcome = Except.ok ()

/-- Once the guard flag is set, any number of further completed-status poll
responses leave the guard set and contribute neither a pipeline effect nor
a timer cancellation to the trace. -/
theorem runPollsGuarded (envs : List PollEnv) (ctx : PollCtx) (st : OrchState)
    (hg : st.completionStarted = true)
    (hall : ∀ e ∈ envs, reportsCompleted e) :
    (runPolls envs ctx st).1.completionStarted = true ∧
    ∀ ev ∈ (runPolls envs ctx st).2,
      isPipelineEffectEv ev = false ∧ ev ≠ Event.clearPollTimer := by
  induction envs generalizing st with
  | nil => simpa [runPolls] using hg
  | cons e rest ih =>
    obtain ⟨s, hs, hc⟩ := hall e (by simp)
    have h1 := pollGuardedRun e ctx st s hs hc hg
    set st1 : OrchState := { st with
      progress := s.progress
      statusMessage := respLabel s } with hst1
    have hg1 : st1.completionStarted = true := hg
    have ihr := ih st1 hg1 (fun e2 he2 => hall e2 (by simp [he2]))
    refine ⟨?_, ?_⟩
    · simpa [runPolls, h1] using ihr.1
    · intro ev hev
      rw [runPolls] at hev
      simp only [h1] at hev
      rcases List.mem_append.mp hev with hl | hr2
      · simp only [List.mem_cons, List.not_mem_nil, or_false] at hl
        rcases hl with h | h | h <;> subst h <;> simp [isPipelineEffectEv,
          isResultFetchEv, isSummaryCallEv, isUpsertEv, isCompletedUpdateEv,
          isFailedUpdateEv, isDeleteCallEv, isRedirectEv]
      · exact ihr.2 ev hr2

/-- After the timer has been cancelled, a run of failed-status poll
responses performs one failed update per response, never touches the timer
again, schedules no redirect, and ends with the timer still cancelled; when
the run is nonempty it ends in the error stage and the surfaced message is
the remote error (or the generic fallback) of one of the observed failed
responses. -/
theorem runPollsFailedInactive (envs : List PollEnv) (ctx : PollCtx)
    (st : OrchState) (hp : st.pollingActive = false)
    (hall : ∀ e ∈ envs, observesFailed e) :
    (runPolls envs ctx st).2.countP isFailedUpdateEv = envs.length ∧
    (runPolls envs ctx st).2.countP isClearTimerEv = 0 ∧
    (runPolls envs ctx st).2.countP isRedirectEv = 0 ∧
    (runPolls envs ctx st).1.pollingActive = false ∧
    (envs = [] ∧ (runPolls envs ctx st).1 = st ∨
      (runPolls envs ctx st).1.stage = ProcessingStage.error ∧
      ∃ e2 s2, e2 ∈ envs ∧ e2.statusOutcome = Except.ok s2 ∧
        s2.status = JobLifecycle.failed ∧
        (runPolls envs ctx st).1.error =
          some (jsOr s2.error "Processing failed")) := by
  induction envs generalizing st with
  | nil => simp [runPolls, hp]
  | cons e rest ih =>
    obtain ⟨⟨s, hs, hf⟩, hu⟩ := hall e (by simp)
    have h1 := pollFailedRunInactive e ctx st s hs hf hu hp
    set st1 : OrchState := { st with
      progress := s.progress
      statusMessage := respLabel s
      stage := ProcessingStage.error
      error := some (jsOr s.error "Processing failed") } with hst1
    have hp1 : st1.pollingActive = false := hp
    have ihr := ih st1 hp1 (fun e2 he2 => hall e2 (by simp [he2]))
    have hcount : ∀ p : Event → Bool,
        (runPolls (e :: rest) ctx st).2.countP p =
          ([Event.callGetJobStatus ctx.jobId,
            Event.setProgressEv s.progress,
            Event.setStatusMessageEv (respLabel s),
            Event.updateLectureRow ctx.lectureId LectureUpdatePayload.failedOnly,
            Event.setStageEv ProcessingStage.error,
            Event.setErrorEv (some (jsOr s.error "Processing failed"))] :
              List Event).countP p +
          (runPolls rest ctx st1).2.countP p := by
      intro p
      rw [runPolls]
      simp only [h1, hst1]
      exact List.countP_append p _ _
    have hfin : (runPolls (e :: rest) ctx st).1 = (runPolls rest ctx st1).1 := by
      rw [runPolls]
      simp only [h1, hst1]
    refine ⟨?_, ?_, ?_, ?_, ?_⟩
    · rw [hcount isFailedUpdateEv, ihr.1]
      simp [List.countP_cons, isFailedUpdateEv]
      omega
    · rw [hcount isClearTimerEv, ihr.2.1]
      simp [List.countP_cons, isClearTimerEv]
    · rw [hcount isRedirectEv, ihr.2.2.1]
      simp [List.countP_cons, isRedirectEv]
    · rw [hfin]; exact ihr.2.2.2.1
    · right
      rcases ihr.2.2.2.2 with ⟨hre, heq⟩ | ⟨hst, e2, s2, hmem, hso, hsf, herr⟩
      · rw [hfin, heq]
        exact ⟨rfl, e, s, by simp, hs, hf, rfl⟩
      · rw [hfin]
        exact ⟨hst, e2, s2, by simp [hmem], hso, hsf, herr⟩

end MultiRunLemmas

section ClaimC7

/-- C7: deleteJob is idempotent at the caller interface: any 404 response,
in particular the one a repeat call after a successful deletion yields, is
treated as success and raises no observable error, and any ok response is
success, while any other non-ok response makes deleteJob throw. -/
theorem deleteJobIdempotent :
    (∀ r : HttpResponse, r.status = 404 → deleteJob r = Except.ok ()) ∧
    (∀ r : HttpResponse, r.ok = true → deleteJob r = Except.ok ()) ∧
    (∀ r1 r2 : HttpResponse, r1.ok = true → r2.status = 404 →
      deleteJob r1 = Except.ok () ∧ deleteJob r2 = Except.ok ()) ∧
    (∀ r : HttpResponse, r.ok = false → r.status ≠ 404 →
      deleteJob r = Except.error "Failed to delete job") := by
  refine ⟨?_, ?_, ?_, ?_⟩
  · intro r h; simp [deleteJob, h]
  · intro r h; simp [deleteJob, h]
  · intro r1 r2 h1 h2
    exact ⟨by simp [deleteJob, h1], by simp [deleteJob, h2]⟩
  · intro r h1 h2
    have hb : (r.status != 404) = true := by simpa using h2
    simp [deleteJob, h1, hb]

/-- Witness for C7 at concrete responses: a 200, the 404 a second deletion
yields, and a 500. -/
theorem deleteJobIdempotent_witness :
    deleteJob { ok := true, status := 200 } = Except.ok () ∧
    deleteJob { ok := false, status := 404 } = Except.ok () ∧
    deleteJob { ok := false, status := 500 } =
      Except.error "Failed to delete job" :=
  ⟨deleteJobIdempotent.2.1 { ok := true, status := 200 } rfl,
   deleteJobIdempotent.1 { ok := false, status := 404 } rfl,
   deleteJobIdempotent.2.2.2 { ok := false, status := 500 } rfl (by decide)⟩

end ClaimC7

section ClaimC10

/-- C10: every poll response whose status request resolves overwrites the
displayed progress and status message with the values derived from the
remote response, as the first two writes of the invocation, before the
reported status is branched on and hence before the completion guard is
consulted; a non-terminal (pending or processing) response does nothing
else; and a completed response arriving after the guard is already set is
suppressed entirely beyond those display writes, the guard blocking only
the completion pipeline. -/
theorem pollDisplayUpdatedDespiteGuard (env : PollEnv) (ctx : PollCtx)
    (st : OrchState) (s : JobStatus)
    (hs : env.statusOutcome = Except.ok s) :
    (∃ tail, (pollJobStatus env ctx st).2 =
      Event.callGetJobStatus ctx.jobId :: Event.setProgressEv s.progress ::
        Event.setStatusMessageEv (respLabel s) :: tail) ∧
    (s.status = JobLifecycle.pending ∨ s.status = JobLifecycle.processing →
      pollJobStatus env ctx st =
        ({ st with progress := s.progress, statusMessage := respLabel s },
         [Event.callGetJobStatus ctx.jobId, Event.setProgressEv s.progress,
          Event.setStatusMessageEv (respLabel s)])) ∧
    (s.status = JobLifecycle.completed → st.completionStarted = true →
      (pollJobStatus env ctx st).1.progress = s.progress ∧
      (pollJobStatus env ctx st).1.statusMessage = respLabel s ∧
      (pollJobStatus env ctx st).2 =
        [Event.callGetJobStatus ctx.jobId, Event.setProgressEv s.progress,
         Event.setStatusMessageEv (respLabel s)] ∧
      ∀ ev ∈ (pollJobStatus env ctx st).2, isPipelineEffectEv ev = false) := by
  refine ⟨pollTraceHead env ctx st s hs, ?_, ?_⟩
  · intro h
    rcases h with h | h <;>
      simp [pollJobStatus, handleStatusSync, respLabel, hs, h]
  · intro hc hg
    have h := pollGuardedRun env ctx st s hs hc hg
    refine ⟨by simp [h], by simp [h], by simp [h], ?_⟩
    intro ev hev
    rw [h] at hev
    simp only [List.mem_cons, List.not_mem_nil, or_false] at hev
    rcases hev with h2 | h2 | h2 <;> subst h2 <;>
      simp [isPipelineEffectEv, isResultFetchEv, isSummaryCallEv, isUpsertEv,
        isCompletedUpdateEv, isFailedUpdateEv, isDeleteCallEv, isRedirectEv]

/-- Witness for C10: a processing response on the post-submission state
(display-only run), a failed response (display writes open its trace), and
a completed response on the guarded state (display writes with the
pipeline suppressed). -/
theorem pollDisplayUpdatedDespiteGuard_witness :
    pollJobStatus processingPollEnv cexCtx postSubmitState =
      ({ postSubmitState with progress := processingStatusResp.progress, statusMessage := respLabel processingStatusResp },
       [Event.callGetJobStatus cexCtx.jobId,
        Event.setProgressEv processingStatusResp.progress,
        Event.setStatusMessageEv (respLabel processingStatusResp)]) ∧
    (∃ tail, (pollJobStatus failedPollEnv cexCtx postSubmitState).2 =
      Event.callGetJobStatus cexCtx.jobId ::
        Event.setProgressEv failedStatusResp.progress ::
          Event.setStatusMessageEv (respLabel failedStatusResp) :: tail) ∧
    (pollJobStatus benignPollEnv cexCtx guardedState).1.progress =
      completedStatusResp.progress ∧
    (pollJobStatus benignPollEnv cexCtx guardedState).1.statusMessage =
      respLabel completedStatusResp ∧
    (pollJobStatus benignPollEnv cexCtx guardedState).2 =
      [Event.callGetJobStatus cexCtx.jobId,
       Event.setProgressEv completedStatusResp.progress,
       Event.setStatusMessageEv (respLabel completedStatusResp)] ∧
    ∀ ev ∈ (pollJobStatus benignPollEnv cexCtx guardedState).2,
      isPipelineEffectEv ev = false := by
  refine ⟨(pollDisplayUpdatedDespiteGuard processingPollEnv cexCtx
      postSubmitState processingStatusResp rfl).2.1 (Or.inr rfl),
    (pollDisplayUpdatedDespiteGuard failedPollEnv cexCtx postSubmitState
      failedStatusResp rfl).1, ?_⟩
  have h3 := (pollDisplayUpdatedDespiteGuard benignPollEnv cexCtx guardedState
    completedStatusResp rfl).2.2 rfl rfl
  exact ⟨h3.1, h3.2.1, h3.2.2.1, h3.2.2.2⟩

end ClaimC10

section ClaimC3

/-- C3: submitting while the identity lookup resolves with no user aborts
before any remote mutation: no lecture row is inserted, no job is
submitted, and the login message is surfaced; however, contrary to the
claimed error-stage transition, the stage remains uploading, so the
component stays in the disabled processing presentation with the message
shown beside it. -/
theorem handleProcessUnauthenticated :
    (handleProcess noUserEnv idleReadyState).1.error =
      some "Please log in to continue" ∧
    (handleProcess noUserEnv idleReadyState).2.countP isInsertLectureEv = 0 ∧
    (handleProcess noUserEnv idleReadyState).2.countP isProcessCallEv = 0 ∧
    (handleProcess noUserEnv idleReadyState).2.countP isResultFetchEv = 0 ∧
    (handleProcess noUserEnv idleReadyState).1.stage =
      ProcessingStage.uploading ∧
    (handleProcess noUserEnv idleReadyState).1.stage ≠
      ProcessingStage.error := by
  decide

end ClaimC3

section ClaimC9

/-- C9 counterexample: an invocation whose awaited failed-branch update
rejects is indeed caught and logged, but the invocation has already
cancelled the polling timer, contradicting the claim that the timer is
left untouched and polling continues whenever any awaited step throws. -/
theorem pollDeepThrowCancelsTimer_cex :
    postSubmitState.pollingActive = true ∧
    (pollJobStatus failedUpdateThrowEnv cexCtx postSubmitState).1.pollingActive
      = false ∧
    (pollJobStatus failedUpdateThrowEnv cexCtx postSubmitState).2.countP
      isClearTimerEv = 1 ∧
    Event.logged "Polling error:" ∈
      (pollJobStatus failedUpdateThrowEnv cexCtx postSubmitState).2 := by
  decide

/-- C9 amended, scoped to what the code does at each throw site.  First:
when the status request itself rejects, the exception is caught and only
logged, the state (stage, surfaced error, guard flag, timer) is returned
unchanged and polling continues on the next tick.  Second: when the
awaited update of the failed branch rejects, the exception is caught by
the outer handler and only logged, with stage, surfaced error and guard
flag unchanged, but the timer has already been cancelled inside that
invocation, so polling does not continue.  Third: a rejection inside the
completion branch (here, the result fetch) is not a log-only event at all:
the inner catch performs the completed update, the cleanup call and the
navigation, and the outer log never fires. -/
theorem pollHandlerThrowHandling (env : PollEnv) (ctx : PollCtx)
    (st : OrchState) :
    (env.statusOutcome = Except.error () →
      pollJobStatus env ctx st =
        (st, [Event.callGetJobStatus ctx.jobId,
              Event.logged "Polling error:"])) ∧
    (∀ s, env.statusOutcome = Except.ok s → s.status = JobLifecycle.failed →
      env.failedUpdateOutcome = Except.error () → st.pollingActive = true →
      (pollJobStatus env ctx st).1.stage = st.stage ∧
      (pollJobStatus env ctx st).1.error = st.error ∧
      (pollJobStatus env ctx st).1.completionStarted = st.completionStarted ∧
      (pollJobStatus env ctx st).1.pollingActive = false ∧
      (pollJobStatus env ctx st).2 =
        [Event.callGetJobStatus ctx.jobId, Event.setProgressEv s.progress,
         Event.setStatusMessageEv (respLabel s), Event.clearPollTimer,
         Event.updateLectureRow ctx.lectureId LectureUpdatePayload.failedOnly,
         Event.logged "Polling error:"]) ∧
    (∀ s, env.statusOutcome = Except.ok s →
      s.status = JobLifecycle.completed → st.completionStarted = false →
      st.pollingActive = true → env.resultOutcome = Except.error () →
      env.rescueUpdateOutcome = Except.ok () →
      Event.updateLectureRow ctx.lectureId LectureUpdatePayload.completedOnly ∈
        (pollJobStatus env ctx st).2 ∧
      Event.callDeleteJob ctx.jobId ∈ (pollJobStatus env ctx st).2 ∧
      Event.navigate ctx.lectureId ∈ (pollJobStatus env ctx st).2 ∧
      Event.logged "Polling error:" ∉ (pollJobStatus env ctx st).2 ∧
      (pollJobStatus env ctx st).1.completionStarted = true) := by
  refine ⟨?_, ?_, ?_⟩
  · intro h
    simp [pollJobStatus, h]
  · intro s hs hf hu hp
    simp [pollJobStatus, handleStatusSync, runFailedBranch, respLabel,
      hs, hf, hu, hp]
  · intro s hs hc hg hp hr hru
    have h1 := pollResultThrowRun env ctx st s hs hc hr hru hg hp
    rw [h1]
    refine ⟨by simp, by simp, by simp, ?_, rfl⟩
    intro hmem
    simp at hmem

/-- Witness for C9 at a rejecting status request on the post-submission
state. -/
theorem pollHandlerThrowHandling_witness :
    pollJobStatus statusThrowEnv cexCtx postSubmitState =
      (postSubmitState,
       [Event.callGetJobStatus cexCtx.jobId, Event.logged "Polling error:"]) :=
  (pollHandlerThrowHandling statusThrowEnv cexCtx postSubmitState).1 rfl

end ClaimC9

section ClaimC2

/-- C2 counterexample: two overlapping failed-status poll responses, both
already in flight when the first one cancels the timer, each run the
unguarded failed branch, so the lecture update to failed executes twice,
not exactly once as claimed. -/
theorem failedUpdateRunsTwice_cex :
    (runPolls [failedPollEnv, failedPollEnv] cexCtx postSubmitState).2.countP
      isFailedUpdateEv = 2 ∧
    ¬ ((runPolls [failedPollEnv, failedPollEnv] cexCtx
      postSubmitState).2.countP isFailedUpdateEv = 1) := by
  decide

/-- C2 amended: a run of failed-status poll responses starting with a live
timer cancels the timer in the first response (exactly one cancellation,
after which the timer issues no further polls), performs the lecture
update to failed once per response that observes the failed status (hence
exactly once when responses do not overlap), ends in the error stage with
the surfaced message being the remote error of one of the observed failed
responses, or the generic fallback when that response carried none, and
schedules no redirect. -/
theorem failedResponsesHandling (e : PollEnv) (rest : List PollEnv)
    (ctx : PollCtx) (st : OrchState)
    (hall : ∀ e2 ∈ e :: rest, observesFailed e2)
    (hp : st.pollingActive = true) :
    (runPolls (e :: rest) ctx st).2.countP isFailedUpdateEv =
      rest.length + 1 ∧
    (runPolls (e :: rest) ctx st).2.countP isClearTimerEv = 1 ∧
    (runPolls (e :: rest) ctx st).2.countP isRedirectEv = 0 ∧
    (runPolls (e :: rest) ctx st).1.pollingActive = false ∧
    (runPolls (e :: rest) ctx st).1.stage = ProcessingStage.error ∧
    ∃ e2 s2, e2 ∈ e :: rest ∧ e2.statusOutcome = Except.ok s2 ∧
      s2.status = JobLifecycle.failed ∧
      (runPolls (e :: rest) ctx st).1.error =
        some (jsOr s2.error "Processing failed") := by
  obtain ⟨⟨s, hs, hf⟩, hu⟩ := hall e (by simp)
  have h1 := pollFailedRunActive e ctx st s hs hf hu hp
  set st1 : OrchState := { st with
    progress := s.progress
    statusMessage := respLabel s
    pollingActive := false
    stage := ProcessingStage.error
    error := some (jsOr s.error "Processing failed") } with hst1
  have ihr := runPollsFailedInactive rest ctx st1 rfl
    (fun e2 he2 => hall e2 (by simp [he2]))
  have hcount : ∀ p : Event → Bool,
      (runPolls (e :: rest) ctx st).2.countP p =
        ([Event.callGetJobStatus ctx.jobId,
          Event.setProgressEv s.progress,
          Event.setStatusMessageEv (respLabel s),
          Event.clearPollTimer,
          Event.updateLectureRow ctx.lectureId LectureUpdatePayload.failedOnly,
          Event.setStageEv ProcessingStage.error,
          Event.setErrorEv (some (jsOr s.error "Processing failed"))] :
            List Event).countP p +
        (runPolls rest ctx st1).2.countP p := by
    intro p
    rw [runPolls]
    simp only [h1, hst1]
    exact List.countP_append p _ _
  have hfin : (runPolls (e :: rest) ctx st).1 = (runPolls rest ctx st1).1 := by
    rw [runPolls]
    simp only [h1, hst1]
  refine ⟨?_, ?_, ?_, ?_, ?_, ?_⟩
  · rw [hcount isFailedUpdateEv, ihr.1]
    simp [List.countP_cons, isFailedUpdateEv]
    omega
  · rw [hcount isClearTimerEv, ihr.2.1]
    simp [List.countP_cons, isClearTimerEv]
  · rw [hcount isRedirectEv, ihr.2.2.1]
    simp [List.countP_cons, isRedirectEv]
  · rw [hfin]; exact ihr.2.2.2.1
  · rw [hfin]
    rcases ihr.2.2.2.2 with ⟨_, heq⟩ | ⟨hst, _⟩
    · rw [heq]
    · exact hst
  · rw [hfin]
    rcases ihr.2.2.2.2 with ⟨_, heq⟩ | ⟨_, e2, s2, hmem, hso, hsf, herr⟩
    · rw [heq]
      exact ⟨e, s, by simp, hs, hf, rfl⟩
    · exact ⟨e2, s2, by simp [hmem], hso, hsf, herr⟩

/-- Witness for C2 at a single failed response on the post-submission
state. -/
theorem failedResponsesHandling_witness :
    (runPolls [failedPollEnv] cexCtx postSubmitState).2.countP
      isFailedUpdateEv = 1 ∧
    (runPolls [failedPollEnv] cexCtx postSubmitState).2.countP
      isClearTimerEv = 1 ∧
    (runPolls [failedPollEnv] cexCtx postSubmitState).2.countP
      isRedirectEv = 0 ∧
    (runPolls [failedPollEnv] cexCtx postSubmitState).1.pollingActive =
      false ∧
    (runPolls [failedPollEnv] cexCtx postSubmitState).1.stage =
      ProcessingStage.error ∧
    ∃ e2 s2, e2 ∈ [failedPollEnv] ∧ e2.statusOutcome = Except.ok s2 ∧
      s2.status = JobLifecycle.failed ∧
      (runPolls [failedPollEnv] cexCtx postSubmitState).1.error =
        some (jsOr s2.error "Processing failed") :=
  failedResponsesHandling failedPollEnv [] cexCtx postSubmitState
    (by intro e2 he2
        simp only [List.mem_cons, List.not_mem_nil, or_false] at he2
        subst he2
        exact ⟨⟨failedStatusResp, rfl, rfl⟩, rfl⟩)
    rfl

end ClaimC2

section ClaimC8

/-- C8: the polling timer is cancelled on the terminal poll transitions
(the guard transition of the first completed observation and the failed
branch), but the component registers no unmount cleanup whatsoever, so
tearing the hosting view down during the processing stage leaves the
interval alive: the teardown half of the claim has no counterpart in the
code. -/
theorem pollingTimerTeardownGap :
    (pollJobStatus benignPollEnv cexCtx postSubmitState).1.pollingActive
      = false ∧
    (pollJobStatus failedPollEnv cexCtx postSubmitState).1.pollingActive
      = false ∧
    unmountCleanups = [] ∧
    teardownView postSubmitState = postSubmitState ∧
    postSubmitState.stage = ProcessingStage.processing ∧
    postSubmitState.pollingActive = true :=
  ⟨by decide, by decide, rfl, rfl, rfl, rfl⟩

end ClaimC8

section ClaimC5

/-- C5: when the result fetch or the summary generation rejects during the
completion pipeline, the orchestrator does not transition to the error
stage (it remains in summary) and surfaces no error; it still updates the
lecture to completed and never to failed, without a summary record (the
trace holds no summary upsert), still calls the job cleanup, and still
navigates to the detail view. -/
theorem enrichmentFailureDowngraded (env : PollEnv) (ctx : PollCtx)
    (st : OrchState) (s : JobStatus)
    (hs : env.statusOutcome = Except.ok s)
    (hc : s.status = JobLifecycle.completed)
    (hg : st.completionStarted = false) (hp : st.pollingActive = true)
    (hres : env.resultOutcome = Except.error () ∨
      ∃ r, env.resultOutcome = Except.ok r ∧
        truthyString (jobMarkdown r) = true ∧
        env.summaryOutcome = Except.error ())
    (hru : env.rescueUpdateOutcome = Except.ok ()) :
    (pollJobStatus env ctx st).1.stage = ProcessingStage.summary ∧
    (pollJobStatus env ctx st).1.stage ≠ ProcessingStage.error ∧
    (pollJobStatus env ctx st).1.error = st.error ∧
    Event.updateLectureRow ctx.lectureId LectureUpdatePayload.completedOnly ∈
      (pollJobStatus env ctx st).2 ∧
    (pollJobStatus env ctx st).2.countP isFailedUpdateEv = 0 ∧
    (pollJobStatus env ctx st).2.countP isUpsertEv = 0 ∧
    Event.callDeleteJob ctx.jobId ∈ (pollJobStatus env ctx st).2 ∧
    Event.navigate ctx.lectureId ∈ (pollJobStatus env ctx st).2 := by
  rcases hres with h | ⟨r, hr, hm, hsm⟩
  · have h1 := pollResultThrowRun env ctx st s hs hc h hru hg hp
    rw [h1]
    refine ⟨rfl, by simp, rfl, by simp, ?_, ?_, by simp, by simp⟩
    · simp [List.countP_cons, isFailedUpdateEv]
    · simp [List.countP_cons, isUpsertEv]
  · have h1 := pollSummaryThrowRun env ctx st s r hs hc hr hm hsm hru hg hp
    rw [h1]
    refine ⟨rfl, by simp, rfl, by simp, ?_, ?_, by simp, by simp⟩
    · simp [List.countP_cons, isFailedUpdateEv]
    · simp [List.countP_cons, isUpsertEv]

/-- Witness for C5: rejecting result fetch on the post-submission state. -/
theorem enrichmentFailureDowngraded_witness :
    (pollJobStatus resultThrowEnv cexCtx postSubmitState).1.stage =
      ProcessingStage.summary ∧
    (pollJobStatus resultThrowEnv cexCtx postSubmitState).1.stage ≠
      ProcessingStage.error ∧
    (pollJobStatus resultThrowEnv cexCtx postSubmitState).1.error =
      postSubmitState.error ∧
    Event.updateLectureRow cexCtx.lectureId
      LectureUpdatePayload.completedOnly ∈
      (pollJobStatus resultThrowEnv cexCtx postSubmitState).2 ∧
    (pollJobStatus resultThrowEnv cexCtx postSubmitState).2.countP
      isFailedUpdateEv = 0 ∧
    (pollJobStatus resultThrowEnv cexCtx postSubmitState).2.countP
      isUpsertEv = 0 ∧
    Event.callDeleteJob cexCtx.jobId ∈
      (pollJobStatus resultThrowEnv cexCtx postSubmitState).2 ∧
    Event.navigate cexCtx.lectureId ∈
      (pollJobStatus resultThrowEnv cexCtx postSubmitState).2 :=
  enrichmentFailureDowngraded resultThrowEnv cexCtx postSubmitState
    completedStatusResp rfl rfl rfl rfl (Or.inl rfl) rfl

end ClaimC5

section ClaimC4

/-- Trace of the benign completion run used by the ordering analysis,
starting from the reachable post-submission state. -/
def benignCompletionTrace : List Event :=
  (pollJobStatus benignPollEnv cexCtx postSubmitState).2

/-- C4 counterexample: on the success path the transition to the complete
stage happens before the deleteJob cleanup call, so the claimed order
(cleanup requested before the complete transition) is false. -/
theorem completionCleanupOrder_cex :
    ¬ (eventIdx isDeleteCallEv benignCompletionTrace <
       eventIdx isCompleteStageEv benignCompletionTrace) := by
  decide

/-- C4 amended: on the saving-to-complete transition, once the lecture
update succeeds the stage transitions to complete with progress set to
100, then the remote job cleanup is requested, and then the one-time
navigation to the detail view is scheduled with the fixed 1500 ms delay;
the cleanup outcome is swallowed and never surfaced, the whole run being
identical whatever that outcome is. -/
theorem completionTailOrder (env : PollEnv) (ctx : PollCtx) (st : OrchState)
    (s : JobStatus) (r : JobResult) (sm : SummaryResponse)
    (hs : env.statusOutcome = Except.ok s)
    (hc : s.status = JobLifecycle.completed)
    (hr : env.resultOutcome = Except.ok r)
    (hm : truthyString (jobMarkdown r) = true)
    (hsm : env.summaryOutcome = Except.ok sm)
    (hup : env.upsertOutcome = Except.ok ())
    (hud : env.updateOutcome = Except.ok ())
    (hg : st.completionStarted = false) (hp : st.pollingActive = true) :
    eventIdx isCompletedUpdateEv (pollJobStatus env ctx st).2 <
      eventIdx isCompleteStageEv (pollJobStatus env ctx st).2 ∧
    eventIdx isCompleteStageEv (pollJobStatus env ctx st).2 <
      eventIdx isDeleteCallEv (pollJobStatus env ctx st).2 ∧
    eventIdx isDeleteCallEv (pollJobStatus env ctx st).2 <
      eventIdx isRedirectEv (pollJobStatus env ctx st).2 ∧
    Event.setProgressEv 100 ∈ (pollJobStatus env ctx st).2 ∧
    Event.scheduleRedirect ctx.lectureId 1500 ∈ (pollJobStatus env ctx st).2 ∧
    ∀ d, pollJobStatus { env with deleteOutcome := d } ctx st =
      pollJobStatus env ctx st := by
  have h1 := pollBenignRun env ctx st s r sm hs hc hr hm hsm hup hud hg hp
  rw [h1]
  refine ⟨?_, ?_, ?_, by simp, by simp, ?_⟩
  · simp [eventIdx, List.findIdx_cons, isCompletedUpdateEv, isCompleteStageEv]
  · simp [eventIdx, List.findIdx_cons, isCompleteStageEv, isDeleteCallEv]
  · simp [eventIdx, List.findIdx_cons, isDeleteCallEv, isRedirectEv]
  · intro d
    exact pollBenignRun { env with deleteOutcome := d } ctx st s r sm
      hs hc hr hm hsm hup hud hg hp

/-- Witness for C4 on the benign fixture. -/
theorem completionTailOrder_witness :
    eventIdx isCompletedUpdateEv benignCompletionTrace <
      eventIdx isCompleteStageEv benignCompletionTrace ∧
    eventIdx isCompleteStageEv benignCompletionTrace <
      eventIdx isDeleteCallEv benignCompletionTrace ∧
    eventIdx isDeleteCallEv benignCompletionTrace <
      eventIdx isRedirectEv benignCompletionTrace ∧
    Event.scheduleRedirect cexCtx.lectureId 1500 ∈ benignCompletionTrace := by
  have h := completionTailOrder benignPollEnv cexCtx postSubmitState
    completedStatusResp benignResult benignSummary rfl rfl rfl rfl rfl rfl
    rfl rfl rfl
  exact ⟨h.1, h.2.1, h.2.2.1, h.2.2.2.2.1⟩

end ClaimC4

section ClaimC1

/-- An event free of pipeline effects satisfies none of the individual
pipeline predicates. -/
theorem pipelineSubPredicates (ev : Event) (h : isPipelineEffectEv ev = false) :
    isResultFetchEv ev = false ∧ isSummaryCallEv ev = false ∧
    isCompletedUpdateEv ev = false ∧ isDeleteCallEv ev = false ∧
    isRedirectEv ev = false := by
  simp only [isPipelineEffectEv, Bool.or_eq_false_iff] at h
  exact ⟨h.1.1.1.1.1.1, h.1.1.1.1.1.2, h.1.1.1.2, h.1.2, h.2⟩

/-- Only the clearPollTimer event satisfies the clear-timer predicate. -/
theorem clearTimerEvChar (ev : Event) (h : ev ≠ Event.clearPollTimer) :
    isClearTimerEv ev = false := by
  cases ev <;> simp [isClearTimerEv] at h ⊢

/-- C1: for a nonempty collection of overlapping completed-status poll
responses, handled in whatever order their guard segments run, the first
response flips the single-use guard and cancels the repeating timer inside
that same atomic segment, before any pipeline effect appears in the trace,
and the completion pipeline (result fetch, summary generation, persistence
update, cleanup, redirect scheduling) executes exactly once; every later
response observes the guard already set and contributes no pipeline effect
and no further timer operation. -/
theorem completionPipelineExactlyOnce (e : PollEnv) (rest : List PollEnv)
    (ctx : PollCtx) (st : OrchState) (s : JobStatus) (r : JobResult)
    (sm : SummaryResponse)
    (hs : e.statusOutcome = Except.ok s)
    (hc : s.status = JobLifecycle.completed)
    (hr : e.resultOutcome = Except.ok r)
    (hm : truthyString (jobMarkdown r) = true)
    (hsm : e.summaryOutcome = Except.ok sm)
    (hup : e.upsertOutcome = Except.ok ())
    (hud : e.updateOutcome = Except.ok ())
    (hall : ∀ e2 ∈ rest, reportsCompleted e2)
    (hg : st.completionStarted = false)
    (hp : st.pollingActive = true) :
    (runPolls (e :: rest) ctx st).2.countP isResultFetchEv = 1 ∧
    (runPolls (e :: rest) ctx st).2.countP isSummaryCallEv = 1 ∧
    (runPolls (e :: rest) ctx st).2.countP isCompletedUpdateEv = 1 ∧
    (runPolls (e :: rest) ctx st).2.countP isDeleteCallEv = 1 ∧
    (runPolls (e :: rest) ctx st).2.countP isRedirectEv = 1 ∧
    (runPolls (e :: rest) ctx st).2.countP isClearTimerEv = 1 ∧
    ∃ pre post, (runPolls (e :: rest) ctx st).2 =
        pre ++ Event.clearPollTimer :: post ∧
      ∀ ev ∈ pre, isPipelineEffectEv ev = false := by
  have h1 := pollBenignRun e ctx st s r sm hs hc hr hm hsm hup hud hg hp
  set stF : OrchState := { st with
    stage := ProcessingStage.complete
    progress := 100
    statusMessage := "Processing complete!"
    pollingActive := false
    completionStarted := true } with hstF
  have hguard := runPollsGuarded rest ctx stF rfl hall
  have hzero : ∀ p : Event → Bool,
      (∀ ev : Event, isPipelineEffectEv ev = false → p ev = false) →
      (runPolls rest ctx stF).2.countP p = 0 := by
    intro p hsub
    refine List.countP_eq_zero.mpr ?_
    intro a ha
    simp [hsub a (hguard.2 a ha).1]
  have hclear0 : (runPolls rest ctx stF).2.countP isClearTimerEv = 0 := by
    refine List.countP_eq_zero.mpr ?_
    intro a ha
    simp [clearTimerEvChar a (hguard.2 a ha).2]
  have hcount : ∀ p : Event → Bool,
      (runPolls (e :: rest) ctx st).2.countP p =
        (pollJobStatus e ctx st).2.countP p +
        (runPolls rest ctx stF).2.countP p := by
    intro p
    rw [runPolls]
    simp only [h1, hstF]
    exact List.countP_append p _ _
  refine ⟨?_, ?_, ?_, ?_, ?_, ?_, ?_⟩
  · rw [hcount isResultFetchEv,
      hzero isResultFetchEv (fun ev h => (pipelineSubPredicates ev h).1), h1]
    simp [List.countP_cons, isResultFetchEv]
  · rw [hcount isSummaryCallEv,
      hzero isSummaryCallEv (fun ev h => (pipelineSubPredicates ev h).2.1), h1]
    simp [List.countP_cons, isSummaryCallEv]
  · rw [hcount isCompletedUpdateEv,
      hzero isCompletedUpdateEv
        (fun ev h => (pipelineSubPredicates ev h).2.2.1), h1]
    simp [List.countP_cons, isCompletedUpdateEv]
  · rw [hcount isDeleteCallEv,
      hzero isDeleteCallEv
        (fun ev h => (pipelineSubPredicates ev h).2.2.2.1), h1]
    simp [List.countP_cons, isDeleteCallEv]
  · rw [hcount isRedirectEv,
      hzero isRedirectEv
        (fun ev h => (pipelineSubPredicates ev h).2.2.2.2), h1]
    simp [List.countP_cons, isRedirectEv]
  · rw [hcount isClearTimerEv, hclear0, h1]
    simp [List.countP_cons, isClearTimerEv]
  · refine ⟨[Event.callGetJobStatus ctx.jobId, Event.setProgressEv s.progress,
      Event.setStatusMessageEv (respLabel s)],
      ([Event.setStageEv ProcessingStage.summary,
        Event.setStatusMessageEv "Generating AI summary...",
        Event.setProgressEv 90,
        Event.callGetJobResult ctx.jobId,
        Event.callGenerateSummary ((jobMarkdown r).getD "") st.lectureName,
        Event.setStageEv ProcessingStage.saving,
        Event.setStatusMessageEv "Saving to database...",
        Event.setProgressEv 95,
        Event.upsertSummaryRow ctx.lectureId sm.title sm.key_concepts
          sm.definitions sm.main_takeaways [],
        Event.updateLectureRow ctx.lectureId
          (LectureUpdatePayload.completedWithFlags st.slidesFile.isSome
            st.slidesFile.isSome),
        Event.setStageEv ProcessingStage.complete,
        Event.setProgressEv 100,
        Event.setStatusMessageEv "Processing complete!",
        Event.callDeleteJob ctx.jobId,
        Event.scheduleRedirect ctx.lectureId 1500] ++
        (runPolls rest ctx stF).2), ?_, ?_⟩
    · rw [runPolls]
      simp only [h1, hstF]
      simp [List.cons_append, List.append_assoc]
    · intro ev hev
      simp only [List.mem_cons, List.not_mem_nil, or_false] at hev
      rcases hev with h2 | h2 | h2 <;> subst h2 <;>
        simp [isPipelineEffectEv, isResultFetchEv, isSummaryCallEv,
          isUpsertEv, isCompletedUpdateEv, isFailedUpdateEv, isDeleteCallEv,
          isRedirectEv]

/-- Witness for C1: two overlapping completed responses (the second one a
late duplicate) on the post-submission state. -/
theorem completionPipelineExactlyOnce_witness :
    (runPolls [benignPollEnv, benignPollEnv] cexCtx
      postSubmitState).2.countP isResultFetchEv = 1 ∧
    (runPolls [benignPollEnv, benignPollEnv] cexCtx
      postSubmitState).2.countP isSummaryCallEv = 1 ∧
    (runPolls [benignPollEnv, benignPollEnv] cexCtx
      postSubmitState).2.countP isCompletedUpdateEv = 1 ∧
    (runPolls [benignPollEnv, benignPollEnv] cexCtx
      postSubmitState).2.countP isDeleteCallEv = 1 ∧
    (runPolls [benignPollEnv, benignPollEnv] cexCtx
      postSubmitState).2.countP isRedirectEv = 1 ∧
    (runPolls [benignPollEnv, benignPollEnv] cexCtx
      postSubmitState).2.countP isClearTimerEv = 1 ∧
    ∃ pre post, (runPolls [benignPollEnv, benignPollEnv] cexCtx
        postSubmitState).2 = pre ++ Event.clearPollTimer :: post ∧
      ∀ ev ∈ pre, isPipelineEffectEv ev = false :=
  completionPipelineExactlyOnce benignPollEnv [benignPollEnv] cexCtx
    postSubmitState completedStatusResp benignResult benignSummary
    rfl rfl rfl rfl rfl rfl rfl
    (by intro e2 he2
        simp only [List.mem_cons, List.not_mem_nil, or_false] at he2
        subst he2
        exact ⟨completedStatusResp, rfl, rfl⟩)
    rfl rfl

end ClaimC1

section ClaimC6

/-- C6: a submission attempt with no audio selection or a blank lecture
name is rejected with a surfaced validation error and produces no other
effect at all (in particular no network call and no stage change, so an
idle state stays idle); a wrong-type or oversized audio pick and a
wrong-type or oversized slides pick are rejected at selection time with a
surfaced validation error, leaving the stored selections untouched, the
selection handlers performing no network calls. -/
theorem submissionValidationRejected :
    (∀ env st, st.audioFile = none →
      handleProcess env st =
        ({ st with error := some "Please upload an audio file" },
         [Event.setErrorEv (some "Please upload an audio file")])) ∧
    (∀ env st f, st.audioFile = some f → jsTrim st.lectureName = "" →
      handleProcess env st =
        ({ st with error := some "Please enter a lecture name" },
         [Event.setErrorEv (some "Please enter a lecture name")])) ∧
    (∀ f st, audioValidTypes.contains f.mime = false →
      audioValidExtensions.contains ((fileExtension f.name).getD "") = false →
      handleAudioSelect (some f) st =
        { st with
          error := some "Please upload an MP3, WAV, WebM, or M4A audio file" }) ∧
    (∀ f st, (audioValidTypes.contains f.mime = true ∨
        audioValidExtensions.contains ((fileExtension f.name).getD "") = true) →
      f.size > 500 * 1024 * 1024 →
      handleAudioSelect (some f) st =
        { st with error := some "Audio file must be less than 500MB" }) ∧
    (∀ f st, slidesValidTypes.contains f.mime = false →
      slidesValidExtensions.contains ((fileExtension f.name).getD "") = false →
      handleSlidesSelect (some f) st =
        { st with error := some "Please upload a PDF or PPTX file" }) ∧
    (∀ f st, (slidesValidTypes.contains f.mime = true ∨
        slidesValidExtensions.contains ((fileExtension f.name).getD "") = true) →
      f.size > 50 * 1024 * 1024 →
      handleSlidesSelect (some f) st =
        { st with error := some "Slides file must be less than 50MB" }) := by
  refine ⟨?_, ?_, ?_, ?_, ?_, ?_⟩
  · intro env st h
    simp [handleProcess, h]
  · intro env st f h1 h2
    simp [handleProcess, h1, h2]
  · intro f st h1 h2
    have hcond : (!(audioValidTypes.contains f.mime) &&
        !(audioValidExtensions.contains ((fileExtension f.name).getD ""))) =
          true := by rw [h1, h2]; rfl
    simp only [handleAudioSelect]
    rw [hcond]
    simp
  · intro f st h1 h2
    have hcond : (!(audioValidTypes.contains f.mime) &&
        !(audioValidExtensions.contains ((fileExtension f.name).getD ""))) =
          false := by
      rcases h1 with h1 | h1 <;> rw [h1] <;> simp
    simp only [handleAudioSelect]
    rw [hcond]
    simp only [Bool.false_eq_true, if_false]
    rw [if_pos h2]
  · intro f st h1 h2
    have hcond : (!(slidesValidTypes.contains f.mime) &&
        !(slidesValidExtensions.contains ((fileExtension f.name).getD ""))) =
          true := by rw [h1, h2]; rfl
    simp only [handleSlidesSelect]
    rw [hcond]
    simp
  · intro f st h1 h2
    have hcond : (!(slidesValidTypes.contains f.mime) &&
        !(slidesValidExtensions.contains ((fileExtension f.name).getD ""))) =
          false := by
      rcases h1 with h1 | h1 <;> rw [h1] <;> simp
    simp only [handleSlidesSelect]
    rw [hcond]
    simp only [Bool.false_eq_true, if_false]
    rw [if_pos h2]

/-- Wrong-type file fixture: the spec scenario of a text file named
notes.txt. -/
def txtFileMeta : FileMeta :=
  { name := "notes.txt", mime := "text/plain", size := 1024 }

/-- Oversized audio fixture: a 600 MB MP3. -/
def hugeAudioMeta : FileMeta :=
  { name := "big.mp3", mime := "audio/mpeg", size := 600 * 1024 * 1024 }

/-- Oversized slides fixture: a 60 MB PDF. -/
def hugeSlidesMeta : FileMeta :=
  { name := "deck.pdf", mime := "application/pdf", size := 60 * 1024 * 1024 }

/-- Idle state with no audio selection and a blank name. -/
def emptyIdleState : OrchState :=
  { idleReadyState with audioFile := none, lectureName := "" }

/-- Witness for C6: missing audio on submission, the notes.txt pick, an
oversized audio pick and an oversized slides pick. -/
theorem submissionValidationRejected_witness :
    handleProcess goodSubmitEnv emptyIdleState =
      ({ emptyIdleState with error := some "Please upload an audio file" },
       [Event.setErrorEv (some "Please upload an audio file")]) ∧
    handleAudioSelect (some txtFileMeta) emptyIdleState =
      { emptyIdleState with
        error := some "Please upload an MP3, WAV, WebM, or M4A audio file" } ∧
    handleAudioSelect (some hugeAudioMeta) emptyIdleState =
      { emptyIdleState with
        error := some "Audio file must be less than 500MB" } ∧
    handleSlidesSelect (some hugeSlidesMeta) emptyIdleState =
      { emptyIdleState with
        error := some "Slides file must be less than 50MB" } :=
  ⟨submissionValidationRejected.1 goodSubmitEnv emptyIdleState rfl,
   submissionValidationRejected.2.2.1 txtFileMeta emptyIdleState
     (by decide) (by decide),
   submissionValidationRejected.2.2.2.1 hugeAudioMeta emptyIdleState
     (Or.inl (by decide)) (by decide),
   submissionValidationRejected.2.2.2.2.2 hugeSlidesMeta emptyIdleState
     (Or.inl (by decide)) (by decide)⟩

end ClaimC6

end LectureLink
